import Mathlib

/-!
# const_value / constexpr_parameter: lifted constants and their detectors

A shallow embedding of the two headers `const_value.hpp` (namespace `iso`) and
`constexpr_parameter.hpp` (namespace `meta`).

Everything in the two headers happens during translation, so the embedding is a
small model of the part of the C++ type system the headers use:

* `CType` — complete, fully instantiated types: `void`, scalars, enumerations,
  pointers, references, function types and class types.  A class type carries
  its enclosing scope, its name, its template arguments and its public members.
  Type aliases are transparent: a member `using type = void;` is recorded as
  the member type `type` denoting `void`.
* `Value` — compile-time values that can be passed for a `const auto`
  template parameter: booleans, integers, floating-point values (by their IEEE
  754 encoding), `nullptr`, enumerators and class-type (aggregate) values.
  Equality of two values of this type is template-argument equivalence: same
  type and identical value.
* qualified name lookup `T::name`, in its two flavours: type-only lookup (the
  name in front of a `::`, and the last name of a `typename T::name`), and the
  lookup of an id-expression `T::name`.  As in C++, the name of a class is also
  a member of that class (the injected-class-name).

* the language-version guard at the top of each header: a `static_assert` on
  the predefined macro `__cplusplus`.

Base classes, access control, overloading and incomplete types are outside the
model.
-/

/-! ## Data model -/

/-- Top-level cv-qualification of a type. -/
structure CV where
  isConst : Bool := false
  isVolatile : Bool := false
deriving DecidableEq, Repr

/-- Integer kinds. -/
inductive IntKind where
  | char | schar | uchar | short | ushort | int | uint
  | long | ulong | llong | ullong
deriving DecidableEq, Repr

/-- Built-in scalar (non-compound) types other than `void`. -/
inductive Scalar where
  | bool
  | integer (k : IntKind)
  | float | double | ldouble
  | nullptr_t
deriving DecidableEq, Repr

/-- Floating-point kinds. -/
inductive FloatKind where
  | float | double | ldouble
deriving DecidableEq, Repr

/-- The scalar type of a floating-point kind. -/
def FloatKind.scalar : FloatKind → Scalar
  | .float => .float
  | .double => .double
  | .ldouble => .ldouble

/-- The exponent field with all bits set, which encodes infinities and NaNs:
8 exponent bits for `float`, 11 for `double`, 15 for `long double`. -/
def FloatKind.maxExponent : FloatKind → Nat
  | .float => 255
  | .double => 2047
  | .ldouble => 32767

/-- A floating-point value in IEEE 754 encoding: sign bit, biased exponent field
and fraction field. -/
structure FloatBits where
  negative : Bool
  exponent : Nat
  fraction : Nat
deriving DecidableEq, Repr

/-- Whether the encoding is a NaN of the given kind. -/
def FloatBits.isNaN (k : FloatKind) (x : FloatBits) : Bool :=
  x.exponent == k.maxExponent && x.fraction != 0

/-- Whether the encoding is a zero (`+0.0` or `-0.0`). -/
def FloatBits.isZero (x : FloatBits) : Bool :=
  x.exponent == 0 && x.fraction == 0

/-- The built-in comparison `x == y` of two floating-point values of one kind:
a NaN compares unequal to everything, the two zeros compare equal, and any other
two values compare equal when their encodings are the same. -/
def FloatBits.eq (k : FloatKind) (x y : FloatBits) : Bool :=
  if x.isNaN k || y.isNaN k then false
  else if x.isZero && y.isZero then true
  else decide (x = y)

mutual

/-- Compile-time values usable as template arguments of `template <const auto>`. -/
inductive Value where
  | bool (b : Bool)
  | int (k : IntKind) (n : Int)
  | floating (k : FloatKind) (x : FloatBits)
  | nullptr
  | enumerator (ty : CType) (n : Int)
  /-- An object of class type `ty`, given by the values of its non-static data members. -/
  | agg (ty : CType) (fields : List Value)

/-- Template arguments. -/
inductive TArg where
  | val (v : Value)
  | ty (t : CType)

/-- One step of the enclosing scope of a class: a namespace or an enclosing class. -/
inductive Scope where
  | ns (name : String)
  | cls (name : String) (targs : List TArg)

/-- Members of a class. -/
inductive Member where
  /-- A member type: a nested class or enumeration, a typedef or an alias-declaration. -/
  | type (name : String) (ty : CType)
  /-- A static data member; `init` is its value when it is `constexpr`. -/
  | staticData (name : String) (ty : CType) (init : Option Value)
  /-- A non-static data member. -/
  | data (name : String) (ty : CType)
  /-- A static member function. -/
  | staticFn (name : String) (ty : CType)
  /-- A non-static member function. -/
  | fn (name : String) (ty : CType)

/-- Types. -/
inductive CType where
  | void (cv : CV)
  | scalar (cv : CV) (k : Scalar)
  | enum (cv : CV) (name : String) (enumerators : List String)
  | ptr (cv : CV) (pointee : CType)
  | lref (t : CType)
  | rref (t : CType)
  | func (ret : CType) (params : List CType)
  | cls (cv : CV) (scope : List Scope) (name : String) (targs : List TArg)
      (members : List Member)

end

/-- The name a member declares. -/
def Member.name : Member → String
  | .type n _ => n
  | .staticData n _ _ => n
  | .data n _ => n
  | .staticFn n _ => n
  | .fn n _ => n

/-- Whether a member declares a type. -/
def Member.isType : Member → Bool
  | .type _ _ => true
  | _ => false

namespace CType

/-- The type with its top-level cv-qualifiers removed (`std::remove_cv_t`). -/
def removeCV : CType → CType
  | .void _ => .void {}
  | .scalar _ k => .scalar {} k
  | .enum _ n es => .enum {} n es
  | .ptr _ p => .ptr {} p
  | .cls _ sc n ta ms => .cls {} sc n ta ms
  | t => t

/-- The type `const T`; `const` on a reference or function type is ignored. -/
def addConst : CType → CType
  | .void cv => .void { cv with isConst := true }
  | .scalar cv k => .scalar { cv with isConst := true } k
  | .enum cv n es => .enum { cv with isConst := true } n es
  | .ptr cv p => .ptr { cv with isConst := true } p
  | .cls cv sc n ta ms => .cls { cv with isConst := true } sc n ta ms
  | t => t

/-- Whether the type is exactly `void` (no cv-qualifier). -/
def isVoid : CType → Bool
  | .void cv => !cv.isConst && !cv.isVolatile
  | _ => false

/-- Whether the type is (possibly cv-qualified) `void`. -/
def isCVVoid : CType → Bool
  | .void _ => true
  | _ => false

/-- Whether the type is a (possibly cv-qualified) class type. -/
def isClass : CType → Bool
  | .cls _ _ _ _ _ => true
  | _ => false

end CType

/-- The type of a value: `decltype(param)` for a template parameter
`const auto param` bound to the value (top-level cv-qualifiers are dropped). -/
def Value.typeOf : Value → CType
  | .bool _ => .scalar {} .bool
  | .int k _ => .scalar {} (.integer k)
  | .floating k _ => .scalar {} k.scalar
  | .nullptr => .scalar {} .nullptr_t
  | .enumerator ty _ => ty.removeCV
  | .agg ty _ => ty.removeCV

/-! ## Qualified name lookup -/

/-- The first member type named `n` among the members. -/
def findType (n : String) : List Member → Option CType
  | [] => none
  | .type k t :: ms => if k = n then some t else findType n ms
  | _ :: ms => findType n ms

/-- The first member named `n` that is not a type. -/
def findNonType (n : String) : List Member → Option Member
  | [] => none
  | .type _ _ :: ms => findNonType n ms
  | m :: ms => if m.name = n then some m else findNonType n ms

namespace CType

/-- Type-only qualified lookup `T::n`: the lookup of a name that is followed by
`::`, and of the last name of `typename T::n`.  It fails (`none`) when `T` is not a
class type.  In a class it finds the class itself under its own name (the
injected-class-name) and otherwise the member type of that name; members that
are not types are not considered. -/
def lookupType (T : CType) (n : String) : Option CType :=
  match T with
  | .cls _ sc name ta ms => if n = name then some (.cls {} sc name ta ms) else findType n ms
  | _ => none

/-- Whether the id-expression `T::n` is a valid expression in an unevaluated
operand: `n` names a static data member, a non-static data member, a static
member function of the class `T`, or an enumerator of the enumeration `T`.  A
name that denotes a type, a non-static member function or nothing is not. -/
def validIdExpr (T : CType) (n : String) : Bool :=
  match T with
  | .cls _ _ _ _ ms =>
    match findNonType n ms with
    | some (.staticData _ _ _) => true
    | some (.data _ _) => true
    | some (.staticFn _ _) => true
    | _ => false
  | .enum _ _ es => es.contains n
  | _ => false

/-- The value of the `constexpr` static data member `T::n`. -/
def staticValue (T : CType) (n : String) : Option Value :=
  match T with
  | .cls _ _ _ _ ms =>
    match findNonType n ms with
    | some (.staticData _ _ init) => init
    | _ => none
  | _ => none

/-- The declared type of the static data member `T::n`. -/
def staticType (T : CType) (n : String) : Option CType :=
  match T with
  | .cls _ _ _ _ ms =>
    match findNonType n ms with
    | some (.staticData _ ty _) => some ty
    | _ => none
  | _ => none

/-- The names qualified lookup can find in a type: for a class its own name (the
injected-class-name) and the names of the members it declares; nothing for any
other type. -/
def memberNames : CType → List String
  | .cls _ _ name _ ms => name :: ms.map Member.name
  | _ => []

end CType

/-- A variable: its declared type and its initial value. -/
structure Variable where
  declType : CType
  init : Value

/-- Class member access `x.n` on an object expression, for a static data member. -/
def Value.member (x : Value) (n : String) : Option Value :=
  x.typeOf.staticValue n

/-! ## `const_value.hpp` -/

namespace iso

/-- The nested marker `struct ConstValueT { using type = void; };` of `ConstValue<param>`. -/
def ConstValueT (param : Value) : CType :=
  .cls {} [.ns "iso", .cls "ConstValue" [.val param]] "ConstValueT" []
    [.type "type" (.void {})]

/-- The class `template <const auto param> struct ConstValue final`, with its
members in declaration order: `using type = decltype(param);`,
`static constexpr auto value = param;` and the nested marker.  (`final` has no
counterpart here: base classes are outside the model.) -/
def ConstValue (param : Value) : CType :=
  .cls {} [.ns "iso"] "ConstValue" [.val param]
    [ .type "type" param.typeOf,
      .staticData "value" param.typeOf.addConst (some param),
      .type "ConstValueT" (ConstValueT param) ]

/-- The variable template `inline constexpr auto const_v = ConstValue<value>{};`. -/
def const_v (value : Value) : Variable :=
  { declType := (Value.agg (ConstValue value) []).typeOf.addConst,
    init := .agg (ConstValue value) [] }

/-- The alias template `using const_t = ConstValue<value>;`. -/
def const_t (value : Value) : CType := ConstValue value

/-- The concept `const_value`:
`requires(T) { typename T::ConstValueT; T::value; typename T::type; }`.
The parameter list `(T)` is invalid for `void`. -/
def const_value (T : CType) : Bool :=
  !T.isCVVoid
    && (T.lookupType "ConstValueT").isSome
    && T.validIdExpr "value"
    && (T.lookupType "type").isSome

/-- The second template argument `typename T::ConstValueT::type` of the partial
specialization `is_const<T, typename T::ConstValueT::type>`; `none` when the
substitution fails. -/
def is_const.specArg (T : CType) : Option CType :=
  (T.lookupType "ConstValueT").bind (fun M => M.lookupType "type")

/-- The member `is_const<T>::value`, that is `is_const<T, void>::value`: the
partial specialization (`value = true`) is selected when its second argument
exists and is `void`, the primary template (`value = false`) otherwise. -/
def is_const (T : CType) : Bool :=
  match is_const.specArg T with
  | some U => U.isVoid
  | none => false

/-- The variable template `is_const_v<T> = is_const<T>::value`. -/
def is_const_v (T : CType) : Bool := is_const T

end iso

/-! ## `constexpr_parameter.hpp` -/

namespace meta

/-- The nested marker `struct ConstexprParameterT { using type = void; };`. -/
def ConstexprParameterT (var : Value) : CType :=
  .cls {} [.ns "meta", .cls "ConstexprParameter" [.val var]] "ConstexprParameterT" []
    [.type "type" (.void {})]

/-- The class `template <const auto variable> struct ConstexprParameter final`,
with its members in declaration order: `static constexpr auto value = variable;`
and the nested marker.  The template parameter `variable` is written `var`. -/
def ConstexprParameter (var : Value) : CType :=
  .cls {} [.ns "meta"] "ConstexprParameter" [.val var]
    [ .staticData "value" var.typeOf.addConst (some var),
      .type "ConstexprParameterT" (ConstexprParameterT var) ]

/-- The concept `constexpr_parameter`:
`requires(T) { typename T::ConstexprParameterT; }`. -/
def constexpr_parameter (T : CType) : Bool :=
  !T.isCVVoid && (T.lookupType "ConstexprParameterT").isSome

/-- The second template argument `typename T::ConstexprParameterT::type` of the
partial specialization of `is_constexpr`; `none` when the substitution fails. -/
def is_constexpr.specArg (T : CType) : Option CType :=
  (T.lookupType "ConstexprParameterT").bind (fun M => M.lookupType "type")

/-- The member `is_constexpr<T>::value`, that is `is_constexpr<T, void>::value`. -/
def is_constexpr (T : CType) : Bool :=
  match is_constexpr.specArg T with
  | some U => U.isVoid
  | none => false

/-- The variable template `is_constexpr_v<T> = is_constexpr<T>::value`. -/
def is_constexpr_v (T : CType) : Bool := is_constexpr T

end meta

/-- The function-like macro `to_constexpr(X)`, which expands to the expression
`meta::ConstexprParameter<X> {}`. -/
def to_constexpr (X : Value) : Value := .agg (meta.ConstexprParameter X) []

/-! ## The shape the detectors look for, in the words of the specification -/

/-- The type possesses the nested marker with the expected shape: a member type
named `marker` that in turn has a nested type `type` which is `void`. -/
def hasMarkerShape (marker : String) (T : CType) : Prop :=
  ∃ M, T.lookupType marker = some M ∧ M.lookupType "type" = some (.void {})

/-! ## Example types and values -/

namespace Example

/-- The value `42` of type `int`. -/
def fortyTwo : Value := .int .int 42

/-- The class `struct Empty {};`. -/
def Empty : CType := .cls {} [] "Empty" [] []

/-- The type `int`. -/
def int : CType := .scalar {} (.integer .int)

/-- An unrelated generic wrapper `template <typename T> struct Wrapper { T item; };`
instantiated as `Wrapper<int>`. -/
def WrapperInt : CType := .cls {} [] "Wrapper" [.ty int] [.data "item" int]

/-- A user-written class that declares the marker of `iso::ConstValue` itself:
`struct Tagged { struct ConstValueT { using type = void; }; };`. -/
def Tagged : CType :=
  .cls {} [] "Tagged" []
    [.type "ConstValueT" (.cls {} [.cls "Tagged" []] "ConstValueT" [] [.type "type" (.void {})])]

/-- A user-written class that declares the marker of `meta::ConstexprParameter`:
`struct TaggedParam { struct ConstexprParameterT { using type = void; }; };`. -/
def TaggedParam : CType :=
  .cls {} [] "TaggedParam" []
    [.type "ConstexprParameterT"
      (.cls {} [.cls "TaggedParam" []] "ConstexprParameterT" [] [.type "type" (.void {})])]

/-- A class with a member of the marker's name and no nested `type`:
`struct Hollow { struct ConstexprParameterT {}; };`. -/
def Hollow : CType :=
  .cls {} [] "Hollow" []
    [.type "ConstexprParameterT" (.cls {} [.cls "Hollow" []] "ConstexprParameterT" [] [])]

/-- A class with the three member names of `iso::ConstValue` and an empty marker:
`struct Lookalike { struct ConstValueT {}; static constexpr int value = 0; using type = int; };`. -/
def Lookalike : CType :=
  .cls {} [] "Lookalike" []
    [ .type "ConstValueT" (.cls {} [.cls "Lookalike" []] "ConstValueT" [] []),
      .staticData "value" int.addConst (some (.int .int 0)),
      .type "type" int ]

/-- A marker whose nested `type` is `int`: `struct ConstValueT { using type = int; };`
nested in `struct Skewed`. -/
def SkewedMarker : CType :=
  .cls {} [.cls "Skewed" []] "ConstValueT" [] [.type "type" int]

/-- The class `struct Skewed { struct ConstValueT { using type = int; }; };`. -/
def Skewed : CType := .cls {} [] "Skewed" [] [.type "ConstValueT" SkewedMarker]

/-- The aggregate class `struct Point { int x; int y; };`. -/
def Point : CType := .cls {} [] "Point" [] [.data "x" int, .data "y" int]

/-- The aggregate value `Point{1, 2}`. -/
def origin : Value := .agg Point [.int .int 1, .int .int 2]

/-- The type `void`. -/
def void : CType := .void {}

/-- The pointer type `int*`. -/
def intPtr : CType := .ptr {} int

end Example

/-! ## The language-version guard -/

/-- A declaration `static_assert(cond, message);` at the top of a header, whose
condition is an expression in the predefined macro `__cplusplus`. -/
structure StaticAssert where
  cond : Nat → Bool
  message : String

/-- What a rejected translation reports. -/
inductive Diagnostic where
  /-- A failed static assertion, with the message of the declaration. -/
  | staticAssertFailed (message : String)
  /-- A syntax error: the text is not a declaration of the language translated. -/
  | syntaxError
deriving DecidableEq, Repr

/-- Translation of one `static_assert` declaration.  `static_assert` is part of
the language from C++11 on (`__cplusplus >= 201103`); before that the text is
not a declaration and the translation is rejected with a syntax error.  From
C++11 on the declaration has no effect when its condition holds, and the
translation is rejected with its message otherwise. -/
def StaticAssert.check (s : StaticAssert) (cplusplus : Nat) : Except Diagnostic Unit :=
  if cplusplus < 201103 then .error .syntaxError
  else if s.cond cplusplus then .ok ()
  else .error (.staticAssertFailed s.message)

/-- Translation of the static assertions of a header, in order; the first one that
fails rejects the translation. -/
def translateGuards : List StaticAssert → Nat → Except Diagnostic Unit
  | [], _ => .ok ()
  | s :: rest, cplusplus =>
    match s.check cplusplus with
    | .ok _ => translateGuards rest cplusplus
    | .error m => .error m

namespace const_value_hpp

/-- The static assertions of `const_value.hpp`, none of them under a conditional
directive: `static_assert((__cplusplus >= 201703L), "Supported only with C++17 and newer!");`. -/
def static_asserts : List StaticAssert :=
  [{ cond := fun cplusplus => decide (cplusplus ≥ 201703),
     message := "Supported only with C++17 and newer!" }]

end const_value_hpp

namespace constexpr_parameter_hpp

/-- The static assertions of `constexpr_parameter.hpp`, none of them under a
conditional directive:
`static_assert((__cplusplus >= 201703L), "Supported only with C++17 and newer!");`. -/
def static_asserts : List StaticAssert :=
  [{ cond := fun cplusplus => decide (cplusplus ≥ 201703),
     message := "Supported only with C++17 and newer!" }]

end constexpr_parameter_hpp

/-! ## Further helpers on types -/

namespace CType

/-- The type with its top-level cv-qualifiers replaced by `cv`; references and
function types carry none. -/
def withCV (cv : CV) : CType → CType
  | .void _ => .void cv
  | .scalar _ k => .scalar cv k
  | .enum _ n es => .enum cv n es
  | .ptr _ p => .ptr cv p
  | .cls _ sc n ta ms => .cls cv sc n ta ms
  | t => t

/-- The members a class declares (without the injected-class-name). -/
def members : CType → List Member
  | .cls _ _ _ _ ms => ms
  | _ => []

/-- The name of a class type. -/
def className : CType → Option String
  | .cls _ _ n _ _ => some n
  | _ => none

end CType

/-- The type declares a nested member type named `marker` whose nested type
`type` is exactly `void`. -/
def declaresMarkerShape (marker : String) (T : CType) : Prop :=
  ∃ M, findType marker T.members = some M ∧ M.lookupType "type" = some (.void {})

namespace Example

/-- A class at namespace scope that is itself named like the marker of
`iso::ConstValue` and declares only the alias `type`:
`struct ConstValueT { using type = void; };`. -/
def BareMarker : CType := .cls {} [] "ConstValueT" [] [.type "type" (.void {})]

/-- A class at namespace scope that is itself named like the marker of
`meta::ConstexprParameter`: `struct ConstexprParameterT { using type = void; };`. -/
def BareParamMarker : CType :=
  .cls {} [] "ConstexprParameterT" [] [.type "type" (.void {})]

/-- The `double` value `+0.0`. -/
def posZero : Value := .floating .double { negative := false, exponent := 0, fraction := 0 }

/-- The `double` value `-0.0`. -/
def negZero : Value := .floating .double { negative := true, exponent := 0, fraction := 0 }

/-- A quiet NaN of type `double` (exponent field all ones, top fraction bit set). -/
def quietNaN : Value :=
  .floating .double { negative := false, exponent := 2047, fraction := 2251799813685248 }

/-- A class whose member of the marker's name has a nested `type` that is `int`:
`struct SkewedParam { struct ConstexprParameterT { using type = int; }; };`. -/
def SkewedParam : CType :=
  .cls {} [] "SkewedParam" []
    [.type "ConstexprParameterT"
      (.cls {} [.cls "SkewedParam" []] "ConstexprParameterT" [] [.type "type" int])]

end Example

/-! ## Theorems -/

/-- C1: on the substitution path the detector accepts every lifted constant:
`iso::is_const_v<iso::ConstValue<v>>` and
`meta::is_constexpr_v<meta::ConstexprParameter<v>>` are true for every value `v`. -/
theorem detector_sound_sfinae (v : Value) :
    iso.is_const_v (iso.ConstValue v) = true ∧
      meta.is_constexpr_v (meta.ConstexprParameter v) = true := by
  constructor <;> rfl

/-! ### Lookup lemmas -/

/-- A type is exactly `void` when `isVoid` says so. -/
theorem CType.isVoid_iff (U : CType) : U.isVoid = true ↔ U = .void {} := by
  cases U with
  | void cv =>
    obtain ⟨c, w⟩ := cv
    cases c <;> cases w <;> simp [CType.isVoid]
  | _ => simp [CType.isVoid]

/-- Type-only lookup finds nothing in a type that is not a class. -/
theorem CType.lookupType_of_not_class (T : CType) (n : String) (h : T.isClass = false) :
    T.lookupType n = none := by
  cases T <;> simp_all [CType.lookupType, CType.isClass]

/-- A member type that is found by name is declared under that name. -/
theorem findType_some_mem (n : String) (ms : List Member) (t : CType)
    (h : findType n ms = some t) : n ∈ ms.map Member.name := by
  induction ms with
  | nil => simp [findType] at h
  | cons m ms ih =>
    cases m with
    | type k u =>
      by_cases hk : k = n
      · simp [Member.name, hk]
      · simp only [findType, hk, if_false] at h
        simp [ih h]
    | _ =>
      simp only [findType] at h
      simp [ih h]

/-- Type-only lookup only finds names the type has. -/
theorem CType.lookupType_none_of_not_mem (T : CType) (n : String)
    (h : n ∉ T.memberNames) : T.lookupType n = none := by
  cases T with
  | cls cv sc name ta ms =>
    simp only [CType.memberNames, List.mem_cons, not_or] at h
    simp only [CType.lookupType, h.1, if_false]
    cases hf : findType n ms with
    | none => rfl
    | some t => exact absurd (findType_some_mem n ms t hf) h.2
  | _ => rfl

/-- The substitution-path detector of `iso` answers true exactly on the marker shape. -/
theorem iso.is_const_v_iff (T : CType) :
    iso.is_const_v T = true ↔ hasMarkerShape "ConstValueT" T := by
  unfold iso.is_const_v iso.is_const iso.is_const.specArg hasMarkerShape
  cases hM : T.lookupType "ConstValueT" with
  | none => simp
  | some M =>
    cases hU : M.lookupType "type" with
    | none => simp [hU]
    | some U => simp [hU, CType.isVoid_iff]

/-- The substitution-path detector of `meta` answers true exactly on the marker shape. -/
theorem meta.is_constexpr_v_iff (T : CType) :
    meta.is_constexpr_v T = true ↔ hasMarkerShape "ConstexprParameterT" T := by
  unfold meta.is_constexpr_v meta.is_constexpr meta.is_constexpr.specArg hasMarkerShape
  cases hM : T.lookupType "ConstexprParameterT" with
  | none => simp
  | some M =>
    cases hU : M.lookupType "type" with
    | none => simp [hU]
    | some U => simp [hU, CType.isVoid_iff]

/-! ### Detector completeness -/

/-- C2 (counterexample): `Tagged` and `TaggedParam` are user-written classes, not
produced by either Lifter, that declare a nested member with the marker's name;
the detectors answer true on them. -/
theorem detector_complete_counterexample :
    (∀ v, Example.Tagged ≠ iso.ConstValue v) ∧ iso.is_const_v Example.Tagged = true ∧
      (∀ v, Example.TaggedParam ≠ meta.ConstexprParameter v) ∧
      meta.is_constexpr_v Example.TaggedParam = true := by
  refine ⟨?_, rfl, ?_, rfl⟩
  · intro v h
    simp [Example.Tagged, iso.ConstValue] at h
  · intro v h
    simp [Example.TaggedParam, meta.ConstexprParameter] at h

/-- C2 (amended): the detectors answer false on every type that does not possess
the nested marker with the expected shape, that is, on every type `T` for which
`T::ConstValueT::type` (resp. `T::ConstexprParameterT::type`) does not resolve to
`void`. -/
theorem detector_complete_amended (T : CType) :
    (¬ hasMarkerShape "ConstValueT" T → iso.is_const_v T = false) ∧
      (¬ hasMarkerShape "ConstexprParameterT" T → meta.is_constexpr_v T = false) := by
  constructor
  · intro h
    cases hb : iso.is_const_v T with
    | false => rfl
    | true => exact absurd ((iso.is_const_v_iff T).mp hb) h
  · intro h
    cases hb : meta.is_constexpr_v T with
    | false => rfl
    | true => exact absurd ((meta.is_constexpr_v_iff T).mp hb) h

/-- C2 (amended), at concrete types: an empty marker-free class, an unrelated
generic wrapper, a primitive type and a class whose member of the marker's name
has a different nested shape are all rejected. -/
theorem detector_complete_amended_witness :
    iso.is_const_v Example.Empty = false ∧ iso.is_const_v Example.WrapperInt = false ∧
      iso.is_const_v Example.int = false ∧ iso.is_const_v Example.Skewed = false ∧
      meta.is_constexpr_v Example.Empty = false ∧ meta.is_constexpr_v Example.Hollow = false := by
  have shape : ∀ (marker : String) (T : CType),
      (∀ M, T.lookupType marker = some M → M.lookupType "type" ≠ some (.void {})) →
      ¬ hasMarkerShape marker T := fun marker T h ⟨M, hM, hU⟩ => h M hM hU
  refine ⟨(detector_complete_amended Example.Empty).1 (shape _ _ ?_),
    (detector_complete_amended Example.WrapperInt).1 (shape _ _ ?_),
    (detector_complete_amended Example.int).1 (shape _ _ ?_),
    (detector_complete_amended Example.Skewed).1 (shape _ _ ?_),
    (detector_complete_amended Example.Empty).2 (shape _ _ ?_),
    (detector_complete_amended Example.Hollow).2 (shape _ _ ?_)⟩
  · intro M hM; simp [Example.Empty, CType.lookupType, findType] at hM
  · intro M hM; simp [Example.WrapperInt, CType.lookupType, findType] at hM
  · intro M hM; simp [Example.int, CType.lookupType] at hM
  · intro M hM
    simp [Example.Skewed, CType.lookupType, findType] at hM
    subst hM
    simp [Example.SkewedMarker, Example.int, CType.lookupType, findType]
  · intro M hM; simp [Example.Empty, CType.lookupType, findType] at hM
  · intro M hM
    simp [Example.Hollow, CType.lookupType, findType] at hM
    subst hM
    simp [CType.lookupType, findType]

/-! ### Path equivalence -/

/-- C3 (the code at the failing inputs): the two detection mechanisms disagree on
classes that declare the marker's name.  On `Hollow` the concept
`meta::constexpr_parameter` holds and `meta::is_constexpr_v` is false; on
`Lookalike` the concept `iso::const_value` holds and `iso::is_const_v` is false;
on `Tagged` the concept `iso::const_value` fails and `iso::is_const_v` is true. -/
theorem path_equivalence_counterexample :
    (meta.constexpr_parameter Example.Hollow = true ∧
        meta.is_constexpr_v Example.Hollow = false) ∧
      (iso.const_value Example.Lookalike = true ∧ iso.is_const_v Example.Lookalike = false) ∧
      (iso.const_value Example.Tagged = false ∧ iso.is_const_v Example.Tagged = true) := by
  refine ⟨⟨rfl, rfl⟩, ⟨rfl, rfl⟩, ⟨rfl, rfl⟩⟩

/-! ### Exact-shape matching on the substitution path -/

/-- C4: when the member type `M` that `T` declares under the marker's name has
no nested `type`, or has a nested `type` other than `void`, the substitution-path
detector answers false on `T`. -/
theorem exact_shape_sfinae (T M : CType)
    (hshape : M.lookupType "type" = none ∨
      ∃ U, M.lookupType "type" = some U ∧ U ≠ .void {}) :
    (T.lookupType "ConstValueT" = some M → iso.is_const_v T = false) ∧
      (T.lookupType "ConstexprParameterT" = some M → meta.is_constexpr_v T = false) := by
  have hU : ∀ U, M.lookupType "type" = some U → U.isVoid = false := by
    intro U hU
    rcases hshape with h | ⟨V, hV, hne⟩
    · simp [h] at hU
    · have hVU : V = U := Option.some.inj (hV.symm.trans hU)
      subst hVU
      cases hb : V.isVoid with
      | false => rfl
      | true => exact absurd ((CType.isVoid_iff V).mp hb) hne
  constructor
  · intro hM
    cases hT : M.lookupType "type" with
    | none => simp [iso.is_const_v, iso.is_const, iso.is_const.specArg, hM, hT]
    | some U => simp [iso.is_const_v, iso.is_const, iso.is_const.specArg, hM, hT, hU U hT]
  · intro hM
    cases hT : M.lookupType "type" with
    | none => simp [meta.is_constexpr_v, meta.is_constexpr, meta.is_constexpr.specArg, hM, hT]
    | some U =>
      simp [meta.is_constexpr_v, meta.is_constexpr, meta.is_constexpr.specArg, hM, hT, hU U hT]

/-- C4, at concrete types: `Skewed` declares `ConstValueT` with nested `type = int`
and `Hollow` declares `ConstexprParameterT` with no nested `type`; both are
rejected. -/
theorem exact_shape_sfinae_witness :
    iso.is_const_v Example.Skewed = false ∧ meta.is_constexpr_v Example.Hollow = false :=
  ⟨(exact_shape_sfinae Example.Skewed Example.SkewedMarker
      (Or.inr ⟨Example.int, rfl, by simp [Example.int]⟩)).1 rfl,
    (exact_shape_sfinae Example.Hollow
      (.cls {} [.cls "Hollow" []] "ConstexprParameterT" [] []) (Or.inl rfl)).2 rfl⟩

/-! ### Round-trip -/

/-- C5: the value accessor of a lifted constant returns the lifted value, and the
type accessor of `iso::ConstValue<v>` is the type of `v`; the member `value` is
declared with the type `const decltype(v)`.  For a class-type value the accessor
returns the same object, field for field. -/
theorem round_trip (v : Value) :
    (iso.ConstValue v).staticValue "value" = some v ∧
      (iso.ConstValue v).lookupType "type" = some v.typeOf ∧
      (iso.ConstValue v).staticType "value" = some v.typeOf.addConst ∧
      (meta.ConstexprParameter v).staticValue "value" = some v ∧
      (∀ ty fields, (iso.ConstValue (.agg ty fields)).staticValue "value"
          = some (.agg ty fields) ∧
        (meta.ConstexprParameter (.agg ty fields)).staticValue "value"
          = some (.agg ty fields)) :=
  ⟨rfl, rfl, rfl, rfl, fun _ _ => ⟨rfl, rfl⟩⟩

/-! ### The members of a lifted constant -/

/-- C6 (counterexample): `meta::ConstexprParameter<42>` has no member named `type`:
lookup of `type` in it fails, and its member names are its own name, `value` and
`ConstexprParameterT`. -/
theorem three_members_counterexample :
    (meta.ConstexprParameter Example.fortyTwo).lookupType "type" = none ∧
      "type" ∉ (meta.ConstexprParameter Example.fortyTwo).memberNames ∧
      meta.ConstexprParameter Example.fortyTwo =
        .cls {} [.ns "meta"] "ConstexprParameter" [.val (.int .int 42)]
          [ .staticData "value" (.scalar { isConst := true } (.integer .int))
              (some (.int .int 42)),
            .type "ConstexprParameterT" (meta.ConstexprParameterT (.int .int 42)) ] := by
  refine ⟨rfl, ?_, rfl⟩
  simp [meta.ConstexprParameter, CType.memberNames, Member.name]

/-- C6 (amended): `iso::ConstValue<v>` declares exactly the three members `type`
(the type of `v`), `value` (the constant `v`) and the marker `ConstValueT`;
`meta::ConstexprParameter<v>` declares exactly the two members `value` (the
constant `v`) and the marker `ConstexprParameterT`, and no member `type`. -/
theorem lifted_members (v : Value) :
    ((iso.ConstValue v).memberNames = ["ConstValue", "type", "value", "ConstValueT"] ∧
        (iso.ConstValue v).staticValue "value" = some v ∧
        (iso.ConstValue v).lookupType "type" = some v.typeOf ∧
        (iso.ConstValue v).lookupType "ConstValueT" = some (iso.ConstValueT v)) ∧
      ((meta.ConstexprParameter v).memberNames
          = ["ConstexprParameter", "value", "ConstexprParameterT"] ∧
        (meta.ConstexprParameter v).staticValue "value" = some v ∧
        (meta.ConstexprParameter v).lookupType "ConstexprParameterT"
          = some (meta.ConstexprParameterT v) ∧
        (meta.ConstexprParameter v).lookupType "type" = none) :=
  ⟨⟨rfl, rfl, rfl, rfl⟩, ⟨rfl, rfl, rfl, rfl⟩⟩

/-! ### Identity -/

/-- C7 (counterexample): `0.0 == -0.0` holds and both values have the type
`double`, yet `ConstValue<0.0>` and `ConstValue<-0.0>` are different types (and
so are the two `ConstexprParameter` types); `NaN == NaN` is false, yet lifting
one NaN twice gives one type. -/
theorem lifted_identity_counterexample :
    (FloatBits.eq .double { negative := false, exponent := 0, fraction := 0 }
          { negative := true, exponent := 0, fraction := 0 } = true ∧
        Example.posZero.typeOf = Example.negZero.typeOf ∧
        iso.ConstValue Example.posZero ≠ iso.ConstValue Example.negZero ∧
        meta.ConstexprParameter Example.posZero ≠ meta.ConstexprParameter Example.negZero) ∧
      (FloatBits.eq .double { negative := false, exponent := 2047, fraction := 2251799813685248 }
          { negative := false, exponent := 2047, fraction := 2251799813685248 } = false ∧
        iso.ConstValue Example.quietNaN = iso.ConstValue Example.quietNaN) := by
  refine ⟨⟨by decide, rfl, ?_, ?_⟩, ⟨by decide, rfl⟩⟩
  · intro h
    simp [iso.ConstValue, Example.posZero, Example.negZero] at h
  · intro h
    simp [meta.ConstexprParameter, Example.posZero, Example.negZero] at h

/-- C7 (amended): two lifted constants are the same type exactly when the lifted
values are the same template argument (same type, identical value), for both
Lifters, and lifted constants of values of different types are different types.
For booleans, integers of one kind and enumerators of one enumeration this is
`a == b`; for floating-point values of one kind it is `a == b` whenever neither
value is a NaN and they are not both zeros. -/
theorem lifted_identity (a b : Value) :
    ((iso.ConstValue a = iso.ConstValue b ↔ a = b) ∧
        (meta.ConstexprParameter a = meta.ConstexprParameter b ↔ a = b) ∧
        (a.typeOf ≠ b.typeOf →
          iso.ConstValue a ≠ iso.ConstValue b ∧
            meta.ConstexprParameter a ≠ meta.ConstexprParameter b)) ∧
      ((∀ x y : Bool, iso.ConstValue (.bool x) = iso.ConstValue (.bool y) ↔ (x == y) = true) ∧
        (∀ (k : IntKind) (m n : Int),
          iso.ConstValue (.int k m) = iso.ConstValue (.int k n) ↔ (m == n) = true) ∧
        (∀ (ty : CType) (m n : Int),
          iso.ConstValue (.enumerator ty m) = iso.ConstValue (.enumerator ty n)
            ↔ (m == n) = true) ∧
        (∀ (k : FloatKind) (x y : FloatBits),
          x.isNaN k = false → y.isNaN k = false → (x.isZero && y.isZero) = false →
          (iso.ConstValue (.floating k x) = iso.ConstValue (.floating k y)
            ↔ FloatBits.eq k x y = true))) := by
  have inj_iso : ∀ a b : Value, iso.ConstValue a = iso.ConstValue b ↔ a = b := by
    intro a b
    constructor
    · intro h
      simp only [iso.ConstValue, CType.cls.injEq, List.cons.injEq, TArg.val.injEq] at h
      exact h.2.2.2.1.1
    · intro h
      rw [h]
  have inj_meta : ∀ a b : Value,
      meta.ConstexprParameter a = meta.ConstexprParameter b ↔ a = b := by
    intro a b
    constructor
    · intro h
      simp only [meta.ConstexprParameter, CType.cls.injEq, List.cons.injEq,
        TArg.val.injEq] at h
      exact h.2.2.2.1.1
    · intro h
      rw [h]
  refine ⟨⟨inj_iso a b, inj_meta a b, ?_⟩, ?_, ?_, ?_, ?_⟩
  · intro hne
    constructor
    · intro h
      exact hne (congrArg Value.typeOf ((inj_iso a b).mp h))
    · intro h
      exact hne (congrArg Value.typeOf ((inj_meta a b).mp h))
  · intro x y
    rw [inj_iso]
    simp
  · intro k m n
    rw [inj_iso]
    simp
  · intro ty m n
    rw [inj_iso]
    simp
  · intro k x y hx hy hz
    rw [inj_iso]
    simp [FloatBits.eq, hx, hy, hz]

/-- C7 (amended), at concrete values: lifting `true` at two sites gives one type,
`ConstValue<1>` for `int` and for `long` are different types, `ConstValue<1>` and
`ConstValue<2>` are different types, and so are `ConstValue<1.0>` and
`ConstValue<-1.0>`. -/
theorem lifted_identity_witness :
    iso.ConstValue (.bool true) = iso.ConstValue (.bool true) ∧
      iso.ConstValue (.int .int 1) ≠ iso.ConstValue (.int .long 1) ∧
      iso.ConstValue (.int .int 1) ≠ iso.ConstValue (.int .int 2) ∧
      iso.ConstValue (.floating .double { negative := false, exponent := 1023, fraction := 0 })
        ≠ iso.ConstValue
            (.floating .double { negative := true, exponent := 1023, fraction := 0 }) :=
  ⟨(lifted_identity (.bool true) (.bool true)).1.1.mpr rfl,
    ((lifted_identity (.int .int 1) (.int .long 1)).1.2.2 (by simp [Value.typeOf])).1,
    fun h => absurd (((lifted_identity (.bool true) (.bool true)).2.2.1 .int 1 2).mp h)
      (by decide),
    fun h => absurd
      (((lifted_identity (.bool true) (.bool true)).2.2.2.2 .double
        { negative := false, exponent := 1023, fraction := 0 }
        { negative := true, exponent := 1023, fraction := 0 }
        (by decide) (by decide) (by decide)).mp h) (by decide)⟩

/-! ### The marker in isolation -/

/-- C8 (the code at the marker type): the marker of every lifted constant is a
class whose own name is the marker's name, so `T::ConstValueT::type` resolves
through the injected-class-name to `void` and the substitution-path detectors
answer true on the marker type itself.  On the concept path `iso::const_value`
is false on the marker (it has no member `value`) and
`meta::constexpr_parameter` is true. -/
theorem marker_in_isolation (v : Value) :
    (iso.ConstValue v).lookupType "ConstValueT" = some (iso.ConstValueT v) ∧
      (iso.ConstValueT v).lookupType "ConstValueT" = some (iso.ConstValueT v) ∧
      iso.is_const_v (iso.ConstValueT v) = true ∧
      (meta.ConstexprParameter v).lookupType "ConstexprParameterT"
        = some (meta.ConstexprParameterT v) ∧
      meta.is_constexpr_v (meta.ConstexprParameterT v) = true ∧
      iso.const_value (iso.ConstValueT v) = false ∧
      meta.constexpr_parameter (meta.ConstexprParameterT v) = true :=
  ⟨rfl, rfl, rfl, rfl, rfl, rfl, rfl⟩

/-! ### Classes without a member of the marker's name -/

/-- C9 (the code at a class named like the marker): `BareMarker` is a class that
declares the single member `type`, so it has no member named `ConstValueT`, and
the detector `iso::is_const_v` answers true on it; likewise `BareParamMarker`
and `meta::is_constexpr_v`.  On `int`, `int*`, `void` and an empty struct the
detectors answer false. -/
theorem memberless_class_detected :
    (Example.BareMarker.members.map Member.name = ["type"] ∧
        "ConstValueT" ∉ Example.BareMarker.members.map Member.name ∧
        iso.is_const_v Example.BareMarker = true) ∧
      (Example.BareParamMarker.members.map Member.name = ["type"] ∧
        "ConstexprParameterT" ∉ Example.BareParamMarker.members.map Member.name ∧
        meta.is_constexpr_v Example.BareParamMarker = true) ∧
      ((iso.is_const_v Example.int = false ∧ meta.is_constexpr_v Example.int = false) ∧
        (iso.is_const_v Example.intPtr = false ∧ meta.is_constexpr_v Example.intPtr = false) ∧
        (iso.is_const_v Example.void = false ∧ meta.is_constexpr_v Example.void = false) ∧
        (iso.is_const_v Example.Empty = false ∧ meta.is_constexpr_v Example.Empty = false)) := by
  refine ⟨⟨rfl, ?_, rfl⟩, ⟨rfl, ?_, rfl⟩,
    ⟨⟨rfl, rfl⟩, ⟨rfl, rfl⟩, ⟨rfl, rfl⟩, ⟨rfl, rfl⟩⟩⟩
  · simp [Example.BareMarker, CType.members, Member.name]
  · simp [Example.BareParamMarker, CType.members, Member.name]

/-! ### Convenience accessors -/

/-- C10: `const_t<v>` is the type `ConstValue<v>`; `const_v<v>` is a variable of
type `const ConstValue<v>` initialised with the empty object `ConstValue<v>{}`;
`to_constexpr(v)` is the empty object `meta::ConstexprParameter<v>{}`.  The
objects have no data of their own, and `value` read through any of the three is
`v`. -/
theorem accessors_are_sugar (v : Value) :
    iso.const_t v = iso.ConstValue v ∧
      ((iso.const_v v).init = .agg (iso.ConstValue v) [] ∧
        (iso.const_v v).init.typeOf = iso.ConstValue v ∧
        (iso.const_v v).declType = (iso.ConstValue v).addConst ∧
        (iso.const_v v).declType.removeCV = iso.ConstValue v) ∧
      (to_constexpr v = .agg (meta.ConstexprParameter v) [] ∧
        (to_constexpr v).typeOf = meta.ConstexprParameter v) ∧
      ((iso.const_t v).staticValue "value" = some v ∧
        (iso.const_v v).init.member "value" = some v ∧
        (to_constexpr v).member "value" = some v) ∧
      ((iso.const_t v).memberNames = (iso.ConstValue v).memberNames ∧
        (iso.const_v v).init.typeOf.memberNames = (iso.ConstValue v).memberNames ∧
        (to_constexpr v).typeOf.memberNames = (meta.ConstexprParameter v).memberNames) :=
  ⟨rfl, ⟨rfl, rfl, rfl, rfl⟩, ⟨rfl, rfl⟩, ⟨rfl, rfl, rfl⟩, ⟨rfl, rfl, rfl⟩⟩

/-! ### The language-version guard -/

/-- C11 (counterexample): at `__cplusplus = 199711` (C++98), which is less than
201703, both headers are rejected with a syntax error and not with the message
of the guard. -/
theorem version_guard_counterexample :
    199711 < 201703 ∧
      (translateGuards const_value_hpp.static_asserts 199711 = .error .syntaxError ∧
        translateGuards const_value_hpp.static_asserts 199711
          ≠ .error (.staticAssertFailed "Supported only with C++17 and newer!")) ∧
      (translateGuards constexpr_parameter_hpp.static_asserts 199711 = .error .syntaxError ∧
        translateGuards constexpr_parameter_hpp.static_asserts 199711
          ≠ .error (.staticAssertFailed "Supported only with C++17 and newer!")) := by
  refine ⟨by decide, ⟨rfl, ?_⟩, ⟨rfl, ?_⟩⟩
  · intro h
    have h2 : translateGuards const_value_hpp.static_asserts 199711
        = .error .syntaxError := rfl
    rw [h2] at h
    cases h
  · intro h
    have h2 : translateGuards constexpr_parameter_hpp.static_asserts 199711
        = .error .syntaxError := rfl
    rw [h2] at h
    cases h

/-- C11 (amended): each header has exactly one static assertion.  Translation is
rejected exactly when `__cplusplus` is less than 201703: with the message
"Supported only with C++17 and newer!" exactly when `__cplusplus` is at least
201103 and less than 201703, and with a syntax error below 201103.  The guard
passes for every value from 201703 on. -/
theorem version_guard (cplusplus : Nat) :
    (const_value_hpp.static_asserts.length = 1 ∧
        constexpr_parameter_hpp.static_asserts.length = 1) ∧
      ((translateGuards const_value_hpp.static_asserts cplusplus
            = .error (.staticAssertFailed "Supported only with C++17 and newer!")
          ↔ 201103 ≤ cplusplus ∧ cplusplus < 201703) ∧
        (translateGuards constexpr_parameter_hpp.static_asserts cplusplus
            = .error (.staticAssertFailed "Supported only with C++17 and newer!")
          ↔ 201103 ≤ cplusplus ∧ cplusplus < 201703)) ∧
      (cplusplus < 201103 →
        translateGuards const_value_hpp.static_asserts cplusplus = .error .syntaxError ∧
          translateGuards constexpr_parameter_hpp.static_asserts cplusplus
            = .error .syntaxError) ∧
      (((∃ d, translateGuards const_value_hpp.static_asserts cplusplus = .error d)
          ↔ cplusplus < 201703) ∧
        ((∃ d, translateGuards constexpr_parameter_hpp.static_asserts cplusplus = .error d)
          ↔ cplusplus < 201703)) ∧
      (201703 ≤ cplusplus →
        translateGuards const_value_hpp.static_asserts cplusplus = .ok () ∧
          translateGuards constexpr_parameter_hpp.static_asserts cplusplus = .ok ()) := by
  have key : ∀ gs, gs = const_value_hpp.static_asserts ∨
      gs = constexpr_parameter_hpp.static_asserts →
      translateGuards gs cplusplus =
        if cplusplus < 201103 then .error .syntaxError
        else if 201703 ≤ cplusplus then .ok ()
        else .error (.staticAssertFailed "Supported only with C++17 and newer!") := by
    intro gs hgs
    rcases hgs with rfl | rfl
    · by_cases h1 : cplusplus < 201103
      · simp [translateGuards, StaticAssert.check, const_value_hpp.static_asserts, h1]
      · by_cases h2 : 201703 ≤ cplusplus
        · simp [translateGuards, StaticAssert.check, const_value_hpp.static_asserts, h1, h2]
        · simp [translateGuards, StaticAssert.check, const_value_hpp.static_asserts, h1, h2]
    · by_cases h1 : cplusplus < 201103
      · simp [translateGuards, StaticAssert.check, constexpr_parameter_hpp.static_asserts, h1]
      · by_cases h2 : 201703 ≤ cplusplus
        · simp [translateGuards, StaticAssert.check, constexpr_parameter_hpp.static_asserts,
            h1, h2]
        · simp [translateGuards, StaticAssert.check, constexpr_parameter_hpp.static_asserts,
            h1, h2]
  have k1 := key _ (Or.inl rfl)
  have k2 := key _ (Or.inr rfl)
  refine ⟨⟨rfl, rfl⟩, ⟨?_, ?_⟩, ?_, ⟨?_, ?_⟩, ?_⟩
  · rw [k1]; split_ifs <;> simp <;> omega
  · rw [k2]; split_ifs <;> simp <;> omega
  · intro h
    rw [k1, k2]
    simp [h]
  · rw [k1]; split_ifs <;> simp <;> omega
  · rw [k2]; split_ifs <;> simp <;> omega
  · intro h
    rw [k1, k2]
    have h1 : ¬ cplusplus < 201103 := by omega
    simp [h, h1]

/-- C11 (amended), at concrete language versions: C++11 (201103) and C++14
(201402) are rejected with the message, C++98 (199711) with a syntax error, and
C++17 (201703) and C++20 (202002) pass. -/
theorem version_guard_witness :
    translateGuards const_value_hpp.static_asserts 201402
        = .error (.staticAssertFailed "Supported only with C++17 and newer!") ∧
      translateGuards constexpr_parameter_hpp.static_asserts 201103
        = .error (.staticAssertFailed "Supported only with C++17 and newer!") ∧
      translateGuards const_value_hpp.static_asserts 199711 = .error .syntaxError ∧
      translateGuards const_value_hpp.static_asserts 201703 = .ok () ∧
      translateGuards constexpr_parameter_hpp.static_asserts 202002 = .ok () :=
  ⟨(version_guard 201402).2.1.1.mpr (by decide),
    (version_guard 201103).2.1.2.mpr (by decide),
    ((version_guard 199711).2.2.1 (by decide)).1,
    ((version_guard 201703).2.2.2.2 (by decide)).1,
    ((version_guard 202002).2.2.2.2 (by decide)).2⟩

/-! ### The concept path -/

/-- C12: on the requirement-expression path the detector accepts every lifted
constant: the concept `iso::const_value` holds for `iso::ConstValue<v>` and the
concept `meta::constexpr_parameter` holds for `meta::ConstexprParameter<v>`. -/
theorem detector_sound_concept (v : Value) :
    iso.const_value (iso.ConstValue v) = true ∧
      meta.constexpr_parameter (meta.ConstexprParameter v) = true :=
  ⟨rfl, rfl⟩

/-- C13 (the code at the failing inputs): classes that declare a member of the
marker's name with another shape satisfy the concepts.  `Hollow` has an empty
nested `ConstexprParameterT` (no nested `type`), `SkewedParam` has one whose
nested `type` is `int`, and both satisfy `meta::constexpr_parameter`;
`Lookalike` has an empty nested `ConstValueT` and satisfies `iso::const_value`.
The substitution-path detectors answer false on all three. -/
theorem exact_shape_concept_counterexample :
    ((Example.Hollow.lookupType "ConstexprParameterT").bind (fun M => M.lookupType "type")
          = none ∧
        meta.constexpr_parameter Example.Hollow = true ∧
        meta.is_constexpr_v Example.Hollow = false) ∧
      ((Example.SkewedParam.lookupType "ConstexprParameterT").bind
            (fun M => M.lookupType "type") = some Example.int ∧
        meta.constexpr_parameter Example.SkewedParam = true ∧
        meta.is_constexpr_v Example.SkewedParam = false) ∧
      ((Example.Lookalike.lookupType "ConstValueT").bind (fun M => M.lookupType "type")
          = none ∧
        iso.const_value Example.Lookalike = true ∧
        iso.is_const_v Example.Lookalike = false) :=
  ⟨⟨rfl, rfl, rfl⟩, ⟨rfl, rfl, rfl⟩, ⟨rfl, rfl, rfl⟩⟩

/-! ### The substitution path, characterised -/

/-- In a type that is not itself a class of that name, type-only lookup of a name
finds the declared member type. -/
theorem CType.lookupType_eq_findType (T : CType) (n : String)
    (h : T.className ≠ some n) : T.lookupType n = findType n T.members := by
  cases T with
  | cls cv sc name ta ms =>
    have hn : ¬ n = name := fun e => h (by simp [CType.className, e])
    simp [CType.lookupType, CType.members, hn]
  | _ => simp [CType.lookupType, CType.members, findType]

/-- On every type that is not itself a class named `ConstValueT`, the detector
`iso::is_const_v` is true exactly when the type declares a nested member type
`ConstValueT` whose nested `type` is `void`. -/
theorem iso.is_const_v_declared_iff (T : CType) (h : T.className ≠ some "ConstValueT") :
    iso.is_const_v T = true ↔ declaresMarkerShape "ConstValueT" T := by
  rw [iso.is_const_v_iff]
  unfold hasMarkerShape declaresMarkerShape
  rw [CType.lookupType_eq_findType T _ h]

/-- On every type that is not itself a class named `ConstexprParameterT`, the
detector `meta::is_constexpr_v` is true exactly when the type declares a nested
member type `ConstexprParameterT` whose nested `type` is `void`. -/
theorem meta.is_constexpr_v_declared_iff (T : CType)
    (h : T.className ≠ some "ConstexprParameterT") :
    meta.is_constexpr_v T = true ↔ declaresMarkerShape "ConstexprParameterT" T := by
  rw [meta.is_constexpr_v_iff]
  unfold hasMarkerShape declaresMarkerShape
  rw [CType.lookupType_eq_findType T _ h]

/-- C14 (the code at the marker type): the marker of a lifted constant declares
only the member `type`, so it has no nested member type named like the marker,
and yet the substitution-path detectors answer true on it. -/
theorem marker_breaks_characterisation (v : Value) :
    ((iso.ConstValueT v).members = [.type "type" (.void {})] ∧
        ¬ declaresMarkerShape "ConstValueT" (iso.ConstValueT v) ∧
        iso.is_const_v (iso.ConstValueT v) = true) ∧
      ((meta.ConstexprParameterT v).members = [.type "type" (.void {})] ∧
        ¬ declaresMarkerShape "ConstexprParameterT" (meta.ConstexprParameterT v) ∧
        meta.is_constexpr_v (meta.ConstexprParameterT v) = true) := by
  refine ⟨⟨rfl, ?_, rfl⟩, ⟨rfl, ?_, rfl⟩⟩
  · rintro ⟨M, hM, -⟩
    simp [iso.ConstValueT, CType.members, findType] at hM
  · rintro ⟨M, hM, -⟩
    simp [meta.ConstexprParameterT, CType.members, findType] at hM

/-! ### Cross-recognition, cv-qualification, references and pointers -/

/-- C15: neither implementation recognises the lifted constants of the other, on
the substitution path and on the concept path. -/
theorem no_cross_recognition (v : Value) :
    (iso.is_const_v (meta.ConstexprParameter v) = false ∧
        meta.is_constexpr_v (iso.ConstValue v) = false) ∧
      (iso.const_value (meta.ConstexprParameter v) = false ∧
        meta.constexpr_parameter (iso.ConstValue v) = false) ∧
      ((meta.ConstexprParameter v).lookupType "ConstValueT" = none ∧
        (iso.ConstValue v).lookupType "ConstexprParameterT" = none) :=
  ⟨⟨rfl, rfl⟩, ⟨rfl, rfl⟩, ⟨rfl, rfl⟩⟩

/-- C16: the variable `const_v<v>` has the type `const ConstValue<v>`, and the
detectors answer true on a lifted-constant type under every cv-qualification. -/
theorem cv_qualified_detected (v : Value) (cv : CV) :
    ((iso.const_v v).declType = (iso.ConstValue v).addConst ∧
        (iso.const_v v).declType = (iso.ConstValue v).withCV { isConst := true } ∧
        iso.is_const_v (iso.const_v v).declType = true) ∧
      (iso.is_const_v ((iso.ConstValue v).withCV cv) = true ∧
        iso.is_const_v ((iso.ConstValue v).withCV cv) = iso.is_const_v (iso.ConstValue v)) ∧
      (meta.is_constexpr_v (meta.ConstexprParameter v).addConst = true ∧
        meta.is_constexpr_v ((meta.ConstexprParameter v).withCV cv) = true) :=
  ⟨⟨rfl, rfl, rfl⟩, ⟨rfl, rfl⟩, ⟨rfl, rfl⟩⟩

/-- C17: the detectors answer false on lvalue references, references to const,
rvalue references and pointers to a lifted constant. -/
theorem refs_and_pointers_rejected (v : Value) (cv : CV) :
    (iso.is_const_v (.lref (iso.ConstValue v)) = false ∧
        iso.is_const_v (.lref (iso.ConstValue v).addConst) = false ∧
        iso.is_const_v (.rref (iso.ConstValue v)) = false ∧
        iso.is_const_v (.ptr cv (iso.ConstValue v)) = false) ∧
      (meta.is_constexpr_v (.lref (meta.ConstexprParameter v)) = false ∧
        meta.is_constexpr_v (.lref (meta.ConstexprParameter v).addConst) = false ∧
        meta.is_constexpr_v (.rref (meta.ConstexprParameter v)) = false ∧
        meta.is_constexpr_v (.ptr cv (meta.ConstexprParameter v)) = false) ∧
      ((CType.lref (iso.ConstValue v)).lookupType "ConstValueT" = none ∧
        (CType.ptr cv (iso.ConstValue v)).lookupType "ConstValueT" = none) :=
  ⟨⟨rfl, rfl, rfl, rfl⟩, ⟨rfl, rfl, rfl, rfl⟩, ⟨rfl, rfl⟩⟩
